import Mathlib

/-!
Shallow embedding of the `unfc` NFC plugin (TypeScript) for verification.

The embedding covers the capability detectors (`android-detection.ts`,
`ios-detection.ts`), the record codec and radio backend (`web.ts`),
the two bridge backends (`ios-bridge.ts`, `android-bridge.ts`) and the
facade (`nfc.ts`).  JavaScript strings are modelled as Lean `String`,
the user-agent regexes as explicit left-to-right scanners, numbers as
`ℚ` (the arithmetic performed — `major + minor/10` and comparisons
against integer thresholds — is exact in both `ℚ` and IEEE doubles),
promise rejection as `Except JsError`, and the ambient host
environment (injected bridge objects, the result of a native call) as
explicit parameters.
-/

namespace Unfc

/-! ### String scanning primitives -/

/-- Boolean test that `p` is a prefix of `s` (character lists). -/
def startsWithCL : List Char → List Char → Bool
  | [], _ => true
  | _ :: _, [] => false
  | a :: as, b :: bs => a == b && startsWithCL as bs

/-- Boolean test that `p` occurs contiguously inside `s`, i.e. the
JavaScript `s.includes(p)` / a literal regex test. -/
def containsCL (p : List Char) : List Char → Bool
  | [] => startsWithCL p []
  | c :: cs => startsWithCL p (c :: cs) || containsCL p cs

/-- JavaScript `s.includes(p)` on strings (case sensitive). -/
def strIncludes (s p : String) : Bool := containsCL p.data s.data

/-- Case-insensitive containment, modelling a `/p/i` regex test over ASCII. -/
def strIncludesInsens (s p : String) : Bool :=
  containsCL (p.data.map Char.toLower) (s.data.map Char.toLower)

/-- JavaScript `s.startsWith(p)`. -/
def strStartsWith (s p : String) : Bool := startsWithCL p.data s.data

/-- Split a character list into its leading run of decimal digits and the rest. -/
def takeDigitsCL : List Char → List Char × List Char
  | [] => ([], [])
  | c :: cs =>
      if c.isDigit then
        let r := takeDigitsCL cs
        (c :: r.1, r.2)
      else ([], c :: cs)

/-- Value of a list of decimal digits, i.e. `parseInt(·, 10)` on a digit run. -/
def digitsToNat (l : List Char) : Nat :=
  l.foldl (fun acc c => acc * 10 + (c.toNat - 48)) 0

/-! ### Android detection (`android-detection.ts`) -/

/-- Attempt to match the regex `Android (\d+)(?:\.(\d+))?` at the head of `s`:
the literal `Android ` followed by at least one digit, then optionally a dot
followed by at least one digit (the optional group is skipped when the dot is
not followed by a digit, exactly as the regex engine does). -/
def androidVerAt (s : List Char) : Option (Nat × Option Nat) :=
  if startsWithCL "Android ".data s then
    match takeDigitsCL (s.drop 8) with
    | ([], _) => none
    | (ds, r) =>
        match r with
        | '.' :: r2 =>
            match takeDigitsCL r2 with
            | ([], _) => some (digitsToNat ds, none)
            | (ms, _) => some (digitsToNat ds, some (digitsToNat ms))
        | _ => some (digitsToNat ds, none)
  else none

/-- First match of `Android (\d+)(?:\.(\d+))?` in the string, scanning left to
right as `String.prototype.match` does. -/
def androidVerScan : List Char → Option (Nat × Option Nat)
  | [] => none
  | c :: cs =>
      match androidVerAt (c :: cs) with
      | some r => some r
      | none => androidVerScan cs

/-- Attempt to match `Chrome\/(\d+)` at the head of `s`. -/
def chromeVerAt (s : List Char) : Option Nat :=
  if startsWithCL "Chrome/".data s then
    match takeDigitsCL (s.drop 7) with
    | ([], _) => none
    | (ds, _) => some (digitsToNat ds)
  else none

/-- First match of `Chrome\/(\d+)` in the string. -/
def chromeVerScan : List Char → Option Nat
  | [] => none
  | c :: cs =>
      match chromeVerAt (c :: cs) with
      | some n => some n
      | none => chromeVerScan cs

/-- Result shape of `AndroidDetection.getAndroidSupportInfo`. -/
structure AndroidSupportInfo where
  isAndroid : Bool
  version : Option ℚ
  supportsNfc : Bool
  supportsWebNfc : Bool
deriving Repr, DecidableEq

/-- Embedding of `AndroidDetection.getAndroidSupportInfo` (android-detection.ts,
lines 15–53).  `version` is `parseInt(major) + parseInt(minor || "0")/10`. -/
def getAndroidSupportInfo (userAgent : String) : AndroidSupportInfo :=
  let isAndroid := strIncludesInsens userAgent "android"
  if !isAndroid then
    { isAndroid := false, version := none, supportsNfc := false, supportsWebNfc := false }
  else
    let version : Option ℚ :=
      match androidVerScan userAgent.data with
      | some (maj, mi) => some ((maj : ℚ) + ((mi.getD 0 : ℕ) : ℚ) / 10)
      | none => none
    let supportsNfc :=
      match version with
      | some v => decide (v ≥ 4)
      | none => false
    let isChrome := strIncludesInsens userAgent "chrome" || strIncludesInsens userAgent "chromium"
    let chromeVersion :=
      match chromeVerScan userAgent.data with
      | some n => n
      | none => 0
    { isAndroid := isAndroid, version := version, supportsNfc := supportsNfc,
      supportsWebNfc := isChrome && decide (chromeVersion ≥ 89) }

/-- Embedding of `AndroidDetection.shouldUseNativeBridge` (android-detection.ts,
lines 80–91): in a WebView (capacitor/cordova marker, or android + wv markers)
and the device supports native NFC. -/
def shouldUseNativeBridge (userAgent : String) : Bool :=
  let androidInfo := getAndroidSupportInfo userAgent
  if !androidInfo.isAndroid then false
  else
    let isWebView :=
      strIncludesInsens userAgent "capacitor" || strIncludesInsens userAgent "cordova" ||
        (strIncludesInsens userAgent "android" && strIncludesInsens userAgent "wv")
    isWebView && androidInfo.supportsNfc

/-! ### iOS detection (`ios-detection.ts`) -/

/-- Attempt to match `OS (\d+)_(\d+)` at the head of `s` (the trailing
`_?(\d+)?` of the source regex never influences groups 1 and 2, which are the
only ones used). -/
def iosVerAt (s : List Char) : Option (Nat × Nat) :=
  if startsWithCL "OS ".data s then
    match takeDigitsCL (s.drop 3) with
    | ([], _) => none
    | (ds, r) =>
        match r with
        | '_' :: r2 =>
            match takeDigitsCL r2 with
            | ([], _) => none
            | (ms, _) => some (digitsToNat ds, digitsToNat ms)
        | _ => none
  else none

/-- First match of `OS (\d+)_(\d+)_?(\d+)?` in the string. -/
def iosVerScan : List Char → Option (Nat × Nat)
  | [] => none
  | c :: cs =>
      match iosVerAt (c :: cs) with
      | some r => some r
      | none => iosVerScan cs

/-- Result shape of `IosDetection.getIosSupportInfo`. -/
structure IosSupportInfo where
  isIos : Bool
  version : Option ℚ
  supportsNfc : Bool
  requiresNative : Bool
deriving Repr, DecidableEq

/-- Embedding of `IosDetection.getIosSupportInfo` (ios-detection.ts, lines
15–46).  `version` is `parseInt(major) + parseInt(minor)/10`. -/
def getIosSupportInfo (userAgent : String) : IosSupportInfo :=
  let isIos := strIncludesInsens userAgent "iphone" || strIncludesInsens userAgent "ipad" ||
    strIncludesInsens userAgent "ipod"
  if !isIos then
    { isIos := false, version := none, supportsNfc := false, requiresNative := false }
  else
    let version : Option ℚ :=
      match iosVerScan userAgent.data with
      | some (maj, mi) => some ((maj : ℚ) + (mi : ℚ) / 10)
      | none => none
    let supportsNfc :=
      match version with
      | some v => decide (v ≥ 11)
      | none => false
    { isIos := isIos, version := version, supportsNfc := supportsNfc, requiresNative := true }

/-! ### Facade backend selection (`nfc.ts`, constructor) -/

/-- The three backend implementations the facade can bind. -/
inductive BackendKind
  | iosBridge
  | androidBridge
  | webNfc
deriving Repr, DecidableEq

/-- The facade constructor reads `this.androidInfo.useNativeBridge`.
`AndroidSupportInfo` has no field of that name (the detector instead offers the
static method `shouldUseNativeBridge`, which the facade never calls), so in
JavaScript the property access yields `undefined`, which is falsy. -/
def androidInfoUseNativeBridge (_ : AndroidSupportInfo) : Bool := false

/-- Embedding of the `Nfc` constructor's backend choice (nfc.ts, lines 28–50).
`iosBridgePresent` models `typeof (window as any).nativeNfcBridge !== "undefined"`. -/
def selectBackend (userAgent : String) (iosBridgePresent : Bool) : BackendKind :=
  let iosInfo := getIosSupportInfo userAgent
  let androidInfo := getAndroidSupportInfo userAgent
  if iosInfo.isIos && iosBridgePresent then BackendKind.iosBridge
  else if androidInfo.isAndroid && androidInfoUseNativeBridge androidInfo then
    BackendKind.androidBridge
  else BackendKind.webNfc

/-! ### Error and result shapes -/

/-- A JavaScript `Error`-like value: a `name` and a `message`.  Errors
constructed with `new Error(msg)` have name `"Error"`. -/
structure JsError where
  name : String
  message : String
deriving Repr, DecidableEq

/-- Result of `isEnabled`. -/
structure IsEnabledResult where
  enabled : Bool
deriving Repr, DecidableEq

/-- The `NfcErrorType` enum of `definitions.ts`. -/
inductive NfcErrorType
  | NOT_SUPPORTED
  | NOT_ENABLED
  | PERMISSION_DENIED
  | NO_TAG
  | TAG_ERROR
  | IO_ERROR
  | TIMEOUT
  | CANCELLED
  | UNEXPECTED_ERROR
deriving Repr, DecidableEq

/-- The classified error the facade's `startScanSession` rejects with:
an `Error` whose `message` is set and which carries an extra `code`. -/
structure NfcError where
  message : String
  code : NfcErrorType
deriving Repr, DecidableEq

/-- JavaScript `a || b` where `a` is a possibly-absent string: an absent or
empty string is falsy and selects `b`. -/
def jsOrStr (a : Option String) (b : String) : String :=
  match a with
  | some s => if s = "" then b else s
  | none => b

/-- Value of a `new Error(msg)` expression: name `"Error"`, the given message. -/
def jsErr (msg : String) : JsError := { name := "Error", message := msg }

/-! ### Record codec (`web.ts`) -/

/-- The unified `NdefRecord` shape of `definitions.ts`. -/
structure NdefRecord where
  id : String
  tnf : Nat
  type : String
  payload : Option String
  languageCode : Option String
  uri : Option String
  text : Option String
deriving Repr, DecidableEq

/-- The per-record options object built for `NDEFReader.write`: a Web NFC
record type, its data (modelled as the string the `TextDecoder` would
recover), and an optional language. -/
structure NativeRecordOptions where
  recordType : String
  data : Option String
  lang : Option String
deriving Repr, DecidableEq

/-- Embedding of `WebNfc.mapRecordTypeToTnf` (web.ts, lines 725–732). -/
def mapRecordTypeToTnf (recordType : String) : Nat :=
  if recordType = "" then 0
  else if recordType = "text" || recordType = "url" then 1
  else if strIncludes recordType "/" then 2
  else if strStartsWith recordType "urn:" then 3
  else 4

/-- Embedding of the per-record write-path mapping inside `WebNfc.write`
(web.ts, lines 760–780): unified record to native record options. -/
def fromUnifiedRecord (r : NdefRecord) : NativeRecordOptions :=
  if r.type = "T" then
    { recordType := "text",
      data := some (jsOrStr r.payload (jsOrStr r.text "")),
      lang :=
        match r.languageCode with
        | some l => if l = "" then none else some l
        | none => none }
  else if r.type = "U" then
    { recordType := "url",
      data := some (jsOrStr r.payload (jsOrStr r.uri "")),
      lang := none }
  else
    { recordType := r.type,
      data := some (jsOrStr r.payload ""),
      lang := none }

/-- Embedding of the per-record read-path mapping inside
`WebNfc.parseNdefReading` (web.ts, lines 670–711): native record to unified
record.  `record.data` is a buffer object, truthy whenever present; the
`TextDecoder` without the fatal flag never throws, so the hex fallback branch
is unreachable in this model. -/
def toUnifiedRecord (rec : NativeRecordOptions) : NdefRecord :=
  let decoded :=
    match rec.data with
    | some d =>
        if rec.recordType = "text" then (d, d, "")
        else if rec.recordType = "url" then (d, "", d)
        else (d, "", "")
    | none => ("", "", "")
  { id := "",
    tnf := mapRecordTypeToTnf rec.recordType,
    type := rec.recordType,
    payload := some decoded.1,
    languageCode := some (jsOrStr rec.lang "en"),
    text := some decoded.2.1,
    uri := some decoded.2.2 }

/-! ### Radio backend state and operations (`web.ts`) -/

/-- Scan-session options (`StartScanSessionOptions` in `definitions.ts`);
absent fields are `none`. -/
structure StartScanSessionOptions where
  once : Option Bool
  scanSoundEnabled : Option Bool
  alertMessageEnabled : Option Bool
deriving Repr, DecidableEq

/-- Mutable fields of a `WebNfc` instance.  Listener callbacks are modelled by
identities (`Nat`); `hasNdefReader` models `this.ndefReader !== null`;
`nfcSupported` and `iosIsIos` are fixed at construction by
`detectNfcSupport`. -/
structure WebState where
  scanSessionActive : Bool
  scanOnce : Bool
  tagListeners : List Nat
  statusListeners : List Nat
  hasNdefReader : Bool
  nfcSupported : Bool
  iosIsIos : Bool
deriving Repr, DecidableEq

namespace WebNfc

/-- Embedding of `WebNfc.createCompatibilityError` (web.ts, lines 882–888). -/
def createCompatibilityError (st : WebState) : JsError :=
  if st.iosIsIos then
    jsErr "iOS browsers don\x27t support the Web NFC API. To use NFC on iOS, you need a native app implementation."
  else
    jsErr "Web NFC API is not supported in this browser. NFC Web API requires Chrome 89+ on Android with NFC hardware, running over HTTPS."

/-- Embedding of `WebNfc.isEnabled` (web.ts, lines 556–563). -/
def isEnabled (st : WebState) : Except JsError IsEnabledResult :=
  if st.iosIsIos then Except.ok { enabled := false }
  else Except.ok { enabled := st.nfcSupported }

/-- Embedding of `WebNfc.startScanSession` (web.ts, lines 594–660).
`scanOutcome` is the result of `new NDEFReader()` plus `ndefReader.scan()`;
the function returns the promise outcome and the post-state of the object. -/
def startScanSession (st : WebState) (options : Option StartScanSessionOptions)
    (scanOutcome : Except JsError Unit) : Except JsError Unit × WebState :=
  if st.iosIsIos then
    (Except.error (jsErr "NFC reading is not supported in web browsers on iOS. To use NFC on iOS, you need a native app implementation."), st)
  else if !st.nfcSupported then
    (Except.error (createCompatibilityError st), st)
  else
    let st1 := { st with scanSessionActive := true,
                         scanOnce := (options.bind StartScanSessionOptions.once).getD false,
                         hasNdefReader := true }
    match scanOutcome with
    | Except.ok _ => (Except.ok (), st1)
    | Except.error e =>
        let st2 := { st1 with scanSessionActive := false }
        if e.name = "NotAllowedError" then
          (Except.error (jsErr "NFC permission denied. Please allow NFC scanning when prompted."), st2)
        else if e.name = "NotSupportedError" then
          (Except.error (jsErr "NFC is not supported on this device or browser."), st2)
        else
          (Except.error (jsErr ("Failed to start NFC scan: " ++ jsOrStr (some e.message) "Unknown error")), st2)

/-- Embedding of the `reading` event callback registered in
`WebNfc.startScanSession` (web.ts, lines 613–632): on a detection event the
callback returns early when no session is active, otherwise invokes every
registered `tagDetected` listener once and, when `scanOnce` is set, triggers
`stopScanSession` (which clears the active flag).  Returns the post-state and
the identities of the listeners invoked. -/
def deliverReading (st : WebState) : WebState × List Nat :=
  if !st.scanSessionActive then (st, [])
  else if st.scanOnce then
    ({ st with scanSessionActive := false }, st.tagListeners)
  else (st, st.tagListeners)

/-- Embedding of `WebNfc.stopScanSession` (web.ts, lines 734–749).
`abortOutcome` is the result of the optional `ndefReader.abort()` call, whose
failure is caught and logged. -/
def stopScanSession (st : WebState) (abortOutcome : Except JsError Unit) :
    Except JsError Unit × WebState :=
  let st' := { st with scanSessionActive := false }
  if st.hasNdefReader then
    match abortOutcome with
    | Except.ok _ => (Except.ok (), st')
    | Except.error _ => (Except.ok (), st')
  else (Except.ok (), st')

end WebNfc

/-! ### Bridge backends (`ios-bridge.ts`, `android-bridge.ts`) -/

/-- Mutable fields of an `IosBridgeNfc` instance.  `isBridgeAvailable` is
computed once at construction (`isNfcEnabled` and `startNfcScan` both present
on the injected global); `hasStopNfcScan` models `!!this.bridge.stopNfcScan`. -/
structure IosBridgeState where
  isBridgeAvailable : Bool
  hasStopNfcScan : Bool
  tagListeners : List Nat
  statusListeners : List Nat
deriving Repr, DecidableEq

namespace IosBridgeNfc

/-- Embedding of `IosBridgeNfc.isEnabled` (ios-bridge.ts, lines 61–73).
`bridgeCall` is the outcome of `this.bridge.isNfcEnabled()`. -/
def isEnabled (st : IosBridgeState) (bridgeCall : Except JsError Bool) :
    Except JsError IsEnabledResult :=
  if !st.isBridgeAvailable then Except.ok { enabled := false }
  else
    match bridgeCall with
    | Except.ok b => Except.ok { enabled := b }
    | Except.error _ => Except.ok { enabled := false }

/-- Embedding of `IosBridgeNfc.stopScanSession` (ios-bridge.ts, lines
101–111): silent return when the bridge or its `stopNfcScan` is missing, and
any rejection of the native call is caught and logged. -/
def stopScanSession (st : IosBridgeState) (callOutcome : Except JsError Unit) :
    Except JsError Unit × IosBridgeState :=
  if !st.isBridgeAvailable || !st.hasStopNfcScan then (Except.ok (), st)
  else
    match callOutcome with
    | Except.ok _ => (Except.ok (), st)
    | Except.error _ => (Except.ok (), st)

end IosBridgeNfc

/-- Mutable fields of an `AndroidBridgeNfc` instance (android-bridge.ts). -/
structure AndroidBridgeState where
  isBridgeAvailable : Bool
  hasStopNfcScan : Bool
  tagListeners : List Nat
  statusListeners : List Nat
deriving Repr, DecidableEq

namespace AndroidBridgeNfc

/-- Embedding of `AndroidBridgeNfc.isEnabled` (android-bridge.ts, lines
322–334). -/
def isEnabled (st : AndroidBridgeState) (bridgeCall : Except JsError Bool) :
    Except JsError IsEnabledResult :=
  if !st.isBridgeAvailable then Except.ok { enabled := false }
  else
    match bridgeCall with
    | Except.ok b => Except.ok { enabled := b }
    | Except.error _ => Except.ok { enabled := false }

/-- Embedding of `AndroidBridgeNfc.stopScanSession` (android-bridge.ts, lines
362–372). -/
def stopScanSession (st : AndroidBridgeState) (callOutcome : Except JsError Unit) :
    Except JsError Unit × AndroidBridgeState :=
  if !st.isBridgeAvailable || !st.hasStopNfcScan then (Except.ok (), st)
  else
    match callOutcome with
    | Except.ok _ => (Except.ok (), st)
    | Except.error _ => (Except.ok (), st)

end AndroidBridgeNfc

/-! ### Facade operations (`nfc.ts`) -/

namespace Nfc

/-- Embedding of `Nfc.isEnabled` (nfc.ts, lines 71–78): forward the bound
backend's result, degrading any rejection to `enabled:false`. -/
def isEnabled (backendResult : Except JsError IsEnabledResult) :
    Except JsError IsEnabledResult :=
  match backendResult with
  | Except.ok r => Except.ok r
  | Except.error _ => Except.ok { enabled := false }

/-- The classification applied inline in `Nfc.startScanSession` (nfc.ts, lines
103–117), testing the caught error's message/name in source order. -/
def classifyStartScanError (e : JsError) : NfcErrorType :=
  if strIncludes e.message "not supported" || e.name = "NotSupportedError" then
    NfcErrorType.NOT_SUPPORTED
  else if strIncludes e.message "permission" || e.name = "NotAllowedError" then
    NfcErrorType.PERMISSION_DENIED
  else if strIncludes e.message "not enabled" then NfcErrorType.NOT_ENABLED
  else NfcErrorType.UNEXPECTED_ERROR

/-- Embedding of `Nfc.startScanSession` (nfc.ts, lines 92–121): forward the
backend result; on rejection build `new Error(error.message || "Failed to
start NFC scan")` carrying the classified `code`. -/
def startScanSession (backendResult : Except JsError Unit) : Except NfcError Unit :=
  match backendResult with
  | Except.ok _ => Except.ok ()
  | Except.error e =>
      Except.error { message := jsOrStr (some e.message) "Failed to start NFC scan",
                     code := classifyStartScanError e }

/-- The two listener registries that `Nfc.addListener` keeps in sync for one
event name: the facade's own `Set` (no duplicates) and the bound backend's
array. -/
structure FacadeListeners where
  facadeSet : List Nat
  backendList : List Nat
deriving Repr, DecidableEq

/-- Embedding of `Nfc.addListener` (nfc.ts, lines 181–212): insert the
callback identity into the facade's `Set` and push it onto the backend's
array. -/
def addListener (st : FacadeListeners) (f : Nat) : FacadeListeners :=
  { facadeSet := if f ∈ st.facadeSet then st.facadeSet else st.facadeSet ++ [f],
    backendList := st.backendList ++ [f] }

/-- Embedding of the handle returned by `Nfc.addListener` (nfc.ts, lines
206–211): its `remove` deletes the identity from the facade's `Set` and calls
the backend handle's `remove`, which filters the exact function reference out
of the backend's array (ios-bridge.ts, lines 163–169). -/
def handleRemove (st : FacadeListeners) (f : Nat) :
    Except JsError Unit × FacadeListeners :=
  (Except.ok (),
    { facadeSet := st.facadeSet.filter (fun g => g != f),
      backendList := st.backendList.filter (fun g => g != f) })

end Nfc

/-! ### Helper lemmas -/

/-- A present string falling back to the empty string is itself. -/
theorem jsOrStr_some_blank (t : String) : jsOrStr (some t) "" = t := by
  unfold jsOrStr
  by_cases h : t = ""
  · simp [h]
  · simp [h]

/-- A present string falling back to itself is itself. -/
theorem jsOrStr_some_same (t : String) : jsOrStr (some t) t = t := by
  unfold jsOrStr
  by_cases h : t = ""
  · simp [h]
  · simp [h]

/-- An absent string takes the fallback. -/
theorem jsOrStr_none (b : String) : jsOrStr none b = b := rfl

/-- The radio backend's stop always succeeds and only clears the active flag. -/
theorem webStop_eq (st : WebState) (a : Except JsError Unit) :
    WebNfc.stopScanSession st a =
      (Except.ok (), { st with scanSessionActive := false }) := by
  unfold WebNfc.stopScanSession
  cases a <;> cases h : st.hasNdefReader <;> simp [h]

/-- The iOS bridge's stop always succeeds and leaves the state unchanged. -/
theorem iosStop_eq (st : IosBridgeState) (c : Except JsError Unit) :
    IosBridgeNfc.stopScanSession st c = (Except.ok (), st) := by
  unfold IosBridgeNfc.stopScanSession
  cases c <;> split <;> rfl

/-- The Android bridge's stop always succeeds and leaves the state unchanged. -/
theorem androidStop_eq (st : AndroidBridgeState) (c : Except JsError Unit) :
    AndroidBridgeNfc.stopScanSession st c = (Except.ok (), st) := by
  unfold AndroidBridgeNfc.stopScanSession
  cases c <;> split <;> rfl

/-- A detection event delivered while no session is active invokes nothing and
changes nothing. -/
theorem deliverReading_inactive (st : WebState) (h : st.scanSessionActive = false) :
    WebNfc.deliverReading st = (st, []) := by
  unfold WebNfc.deliverReading
  simp [h]

/-! ### Claims -/

/-- C1: the claim says that in every environment where Android is detected,
the detector's `shouldUseNativeBridge` fact holds and no iOS bridge object
exists, the facade binds the Android bridge backend.  The code instead binds
the Web-radio backend there: the constructor tests
`this.androidInfo.useNativeBridge`, a field `AndroidSupportInfo` does not
have, so the test is always falsy and the Android-bridge branch is dead.
This theorem evaluates the embedded constructor at such an environment. -/
theorem androidBridge_never_selected :
    shouldUseNativeBridge "Mozilla/5.0 (Linux; Android 12; wv) Chrome/110" = true ∧
    (getIosSupportInfo "Mozilla/5.0 (Linux; Android 12; wv) Chrome/110").isIos = false ∧
    (getAndroidSupportInfo "Mozilla/5.0 (Linux; Android 12; wv) Chrome/110").isAndroid = true ∧
    selectBackend "Mozilla/5.0 (Linux; Android 12; wv) Chrome/110" false = BackendKind.webNfc ∧
    selectBackend "Mozilla/5.0 (Linux; Android 12; wv) Chrome/110" false ≠
      BackendKind.androidBridge := by
  have hA : strIncludesInsens "Mozilla/5.0 (Linux; Android 12; wv) Chrome/110" "android" = true := by
    decide
  have hscan : androidVerScan ("Mozilla/5.0 (Linux; Android 12; wv) Chrome/110").data =
      some (12, none) := by decide
  have hsup : (getAndroidSupportInfo "Mozilla/5.0 (Linux; Android 12; wv) Chrome/110").supportsNfc
      = true := by
    simp [getAndroidSupportInfo, hA, hscan]
    norm_num
  refine ⟨?_, by decide, by decide, ?_, ?_⟩
  · simp [shouldUseNativeBridge, getAndroidSupportInfo, hA, hscan] at hsup ⊢
    exact ⟨by decide, hsup⟩
  · simp [selectBackend, androidInfoUseNativeBridge]
  · simp [selectBackend, androidInfoUseNativeBridge]

/-- C2 counterexample: the claim states `classify("T") = WELL_KNOWN` (1), but
`mapRecordTypeToTnf` compares against the Web NFC keywords `"text"`/`"url"`,
so `"T"` falls through to the EXTERNAL_TYPE default (4). -/
theorem mapRecordTypeToTnf_T_not_wellKnown : mapRecordTypeToTnf "T" ≠ 1 := by
  decide

/-- C2 (amended): TNF classification on the listed inputs, with `"T"`
corrected: `classify("") = EMPTY`; the WELL_KNOWN keywords are the Web NFC
type strings, `classify("text") = classify("url") = WELL_KNOWN`, while the
unified short code `"T"` classifies as EXTERNAL_TYPE;
`classify("application/json") = MIME_MEDIA`;
`classify("urn:nfc:ext:example") = ABSOLUTE_URI`;
`classify("example.com:custom") = EXTERNAL_TYPE`. -/
theorem mapRecordTypeToTnf_values :
    mapRecordTypeToTnf "" = 0 ∧
    mapRecordTypeToTnf "text" = 1 ∧
    mapRecordTypeToTnf "url" = 1 ∧
    mapRecordTypeToTnf "T" = 4 ∧
    mapRecordTypeToTnf "application/json" = 2 ∧
    mapRecordTypeToTnf "urn:nfc:ext:example" = 3 ∧
    mapRecordTypeToTnf "example.com:custom" = 4 :=
  ⟨rfl, rfl, rfl, rfl, rfl, rfl, rfl⟩

/-- C3: a well-formed unified text record (type `"T"` with text content,
`payload` absent or agreeing with the text) round-tripped through the write
mapping `fromUnifiedRecord` and the read mapping `toUnifiedRecord` keeps its
text in both `text` and `payload`, and `languageCode` comes back `"en"` when
the original supplied none. -/
theorem textRecordRoundTrip (r : NdefRecord) (t : String)
    (htype : r.type = "T") (htext : r.text = some t)
    (hpay : r.payload = some t ∨ r.payload = none) :
    (toUnifiedRecord (fromUnifiedRecord r)).text = some t ∧
    (toUnifiedRecord (fromUnifiedRecord r)).payload = some t ∧
    (r.languageCode = none →
      (toUnifiedRecord (fromUnifiedRecord r)).languageCode = some "en") := by
  have hdata : fromUnifiedRecord r =
      { recordType := "text",
        data := some t,
        lang :=
          match r.languageCode with
          | some l => if l = "" then none else some l
          | none => none } := by
    unfold fromUnifiedRecord
    rcases hpay with h | h <;>
      simp [htype, htext, h, jsOrStr_some_blank, jsOrStr_some_same, jsOrStr_none]
  rw [hdata]
  refine ⟨rfl, rfl, ?_⟩
  intro hl
  simp [toUnifiedRecord, hl, jsOrStr_none]

/-- Witness for C3 at a concrete text record. -/
theorem textRecordRoundTrip_witness :
    (toUnifiedRecord (fromUnifiedRecord
      { id := "", tnf := 1, type := "T", payload := some "hello",
        languageCode := none, uri := none, text := some "hello" })).text = some "hello" ∧
    (toUnifiedRecord (fromUnifiedRecord
      { id := "", tnf := 1, type := "T", payload := some "hello",
        languageCode := none, uri := none, text := some "hello" })).payload = some "hello" ∧
    (toUnifiedRecord (fromUnifiedRecord
      { id := "", tnf := 1, type := "T", payload := some "hello",
        languageCode := none, uri := none, text := some "hello" })).languageCode = some "en" := by
  have h := textRecordRoundTrip
    { id := "", tnf := 1, type := "T", payload := some "hello",
      languageCode := none, uri := none, text := some "hello" }
    "hello" rfl rfl (Or.inl rfl)
  exact ⟨h.1, h.2.1, h.2.2 rfl⟩

/-- C4: `isEnabled` never rejects, on each backend and at the facade: it is
always a resolved promise, and it resolves to `enabled:false` whenever
availability cannot be determined — bridge object missing, wrong platform
(web backend on iOS), or the underlying availability check throwing. -/
theorem isEnabled_never_rejects
    (ist : IosBridgeState) (icall : Except JsError Bool)
    (ast : AndroidBridgeState) (acall : Except JsError Bool)
    (wst : WebState) (br : Except JsError IsEnabledResult) :
    (∃ r, IosBridgeNfc.isEnabled ist icall = Except.ok r) ∧
    (ist.isBridgeAvailable = false →
      IosBridgeNfc.isEnabled ist icall = Except.ok { enabled := false }) ∧
    (∀ e, icall = Except.error e →
      IosBridgeNfc.isEnabled ist icall = Except.ok { enabled := false }) ∧
    (∃ r, AndroidBridgeNfc.isEnabled ast acall = Except.ok r) ∧
    (ast.isBridgeAvailable = false →
      AndroidBridgeNfc.isEnabled ast acall = Except.ok { enabled := false }) ∧
    (∀ e, acall = Except.error e →
      AndroidBridgeNfc.isEnabled ast acall = Except.ok { enabled := false }) ∧
    (∃ r, WebNfc.isEnabled wst = Except.ok r) ∧
    (wst.iosIsIos = true → WebNfc.isEnabled wst = Except.ok { enabled := false }) ∧
    (∃ r, Nfc.isEnabled br = Except.ok r) ∧
    (∀ e, br = Except.error e → Nfc.isEnabled br = Except.ok { enabled := false }) := by
  refine ⟨?_, ?_, ?_, ?_, ?_, ?_, ?_, ?_, ?_, ?_⟩
  · cases hb : ist.isBridgeAvailable <;> cases icall <;>
      simp [IosBridgeNfc.isEnabled, hb]
  · intro hb
    cases icall <;> simp [IosBridgeNfc.isEnabled, hb]
  · intro e he
    cases hb : ist.isBridgeAvailable <;> simp [IosBridgeNfc.isEnabled, hb, he]
  · cases hb : ast.isBridgeAvailable <;> cases acall <;>
      simp [AndroidBridgeNfc.isEnabled, hb]
  · intro hb
    cases acall <;> simp [AndroidBridgeNfc.isEnabled, hb]
  · intro e he
    cases hb : ast.isBridgeAvailable <;> simp [AndroidBridgeNfc.isEnabled, hb, he]
  · cases hi : wst.iosIsIos <;> simp [WebNfc.isEnabled, hi]
  · intro hi
    simp [WebNfc.isEnabled, hi]
  · cases br <;> simp [Nfc.isEnabled]
  · intro e he
    simp [Nfc.isEnabled, he]

/-- Witness for C4: a missing iOS bridge and a rejecting backend at the
facade both degrade to `enabled:false`. -/
theorem isEnabled_never_rejects_witness :
    IosBridgeNfc.isEnabled
        { isBridgeAvailable := false, hasStopNfcScan := false,
          tagListeners := [], statusListeners := [] }
        (Except.error { name := "Error", message := "boom" }) =
      Except.ok { enabled := false } ∧
    Nfc.isEnabled (Except.error { name := "Error", message := "boom" }) =
      Except.ok { enabled := false } := by
  have h := isEnabled_never_rejects
    { isBridgeAvailable := false, hasStopNfcScan := false,
      tagListeners := [], statusListeners := [] }
    (Except.error { name := "Error", message := "boom" })
    { isBridgeAvailable := false, hasStopNfcScan := false,
      tagListeners := [], statusListeners := [] }
    (Except.ok true)
    { scanSessionActive := false, scanOnce := false, tagListeners := [],
      statusListeners := [], hasNdefReader := false, nfcSupported := false,
      iosIsIos := false }
    (Except.error { name := "Error", message := "boom" })
  exact ⟨h.2.1 rfl, h.2.2.2.2.2.2.2.2.2 _ rfl⟩

/-- C5: on each backend and from any state, `stopScanSession` resolves (never
rejects), and a second call also resolves and leaves the state exactly as it
was after the first call. -/
theorem stopScanSession_idempotent
    (wst : WebState) (a1 a2 : Except JsError Unit)
    (ist : IosBridgeState) (b1 b2 : Except JsError Unit)
    (ast : AndroidBridgeState) (c1 c2 : Except JsError Unit) :
    (WebNfc.stopScanSession wst a1).1 = Except.ok () ∧
    WebNfc.stopScanSession (WebNfc.stopScanSession wst a1).2 a2 =
      (Except.ok (), (WebNfc.stopScanSession wst a1).2) ∧
    (IosBridgeNfc.stopScanSession ist b1).1 = Except.ok () ∧
    IosBridgeNfc.stopScanSession (IosBridgeNfc.stopScanSession ist b1).2 b2 =
      (Except.ok (), (IosBridgeNfc.stopScanSession ist b1).2) ∧
    (AndroidBridgeNfc.stopScanSession ast c1).1 = Except.ok () ∧
    AndroidBridgeNfc.stopScanSession (AndroidBridgeNfc.stopScanSession ast c1).2 c2 =
      (Except.ok (), (AndroidBridgeNfc.stopScanSession ast c1).2) := by
  simp [webStop_eq, iosStop_eq, androidStop_eq]

/-- C6: a radio-backend scan session started with `once:true` and one
registered `tagDetected` listener: the first detection event invokes that
listener exactly once, the active flag is false afterwards, and a later
detection event invokes the listener zero further times. -/
theorem onceSession_single_invocation (st : WebState) (f : Nat)
    (hIos : st.iosIsIos = false) (hSup : st.nfcSupported = true)
    (hL : st.tagListeners = [f]) :
    (WebNfc.startScanSession st
      (some { once := some true, scanSoundEnabled := none, alertMessageEnabled := none })
      (Except.ok ())).1 = Except.ok () ∧
    (WebNfc.deliverReading (WebNfc.startScanSession st
      (some { once := some true, scanSoundEnabled := none, alertMessageEnabled := none })
      (Except.ok ())).2).2 = [f] ∧
    (WebNfc.deliverReading (WebNfc.startScanSession st
      (some { once := some true, scanSoundEnabled := none, alertMessageEnabled := none })
      (Except.ok ())).2).1.scanSessionActive = false ∧
    (WebNfc.deliverReading (WebNfc.deliverReading (WebNfc.startScanSession st
      (some { once := some true, scanSoundEnabled := none, alertMessageEnabled := none })
      (Except.ok ())).2).1).2 = [] := by
  simp [WebNfc.startScanSession, WebNfc.deliverReading, hIos, hSup, hL]

/-- Witness for C6 at a concrete radio-backend state with one listener. -/
theorem onceSession_single_invocation_witness :
    (WebNfc.deliverReading (WebNfc.startScanSession
      { scanSessionActive := false, scanOnce := false, tagListeners := [5],
        statusListeners := [], hasNdefReader := false, nfcSupported := true,
        iosIsIos := false }
      (some { once := some true, scanSoundEnabled := none, alertMessageEnabled := none })
      (Except.ok ())).2).2 = [5] := by
  have h := onceSession_single_invocation
    { scanSessionActive := false, scanOnce := false, tagListeners := [5],
      statusListeners := [], hasNdefReader := false, nfcSupported := true,
      iosIsIos := false }
    5 rfl rfl rfl
  exact h.2.1

/-- C7 counterexample: the claim says the facade preserves the backend
error's message, but an empty message (falsy in JavaScript) is replaced by
the default `"Failed to start NFC scan"`. -/
theorem startScan_emptyMessage_replaced :
    Nfc.startScanSession (Except.error { name := "SomeError", message := "" }) =
      Except.error { message := "Failed to start NFC scan",
                     code := NfcErrorType.UNEXPECTED_ERROR } ∧
    ("Failed to start NFC scan" : String) ≠ "" := by
  exact ⟨rfl, by decide⟩

/-- C7 (amended): whenever the bound backend's `startScanSession` rejects
with error `e`, the facade rejects with a new error whose message is `e`'s
message when that is non-empty (an empty message is replaced by the default
`"Failed to start NFC scan"`), and whose `code` is chosen by testing `e`'s
message/name in order: "not supported" or name `NotSupportedError` gives
NOT_SUPPORTED; "permission" or name `NotAllowedError` gives
PERMISSION_DENIED; "not enabled" gives NOT_ENABLED; otherwise
UNEXPECTED_ERROR.  In particular, with the radio backend bound and no reader
constructor (`nfcSupported = false`, not iOS), the facade rejects with code
NOT_SUPPORTED. -/
theorem startScan_error_classification (e : JsError) (st : WebState)
    (opts : Option StartScanSessionOptions) (outcome : Except JsError Unit)
    (hm : e.message ≠ "") (hIos : st.iosIsIos = false) (hSup : st.nfcSupported = false) :
    Nfc.startScanSession (Except.error e) =
      Except.error { message := e.message, code := Nfc.classifyStartScanError e } ∧
    ((strIncludes e.message "not supported" = true ∨ e.name = "NotSupportedError") →
      Nfc.classifyStartScanError e = NfcErrorType.NOT_SUPPORTED) ∧
    (strIncludes e.message "not supported" = false → e.name ≠ "NotSupportedError" →
      (strIncludes e.message "permission" = true ∨ e.name = "NotAllowedError") →
      Nfc.classifyStartScanError e = NfcErrorType.PERMISSION_DENIED) ∧
    (strIncludes e.message "not supported" = false → e.name ≠ "NotSupportedError" →
      strIncludes e.message "permission" = false → e.name ≠ "NotAllowedError" →
      strIncludes e.message "not enabled" = true →
      Nfc.classifyStartScanError e = NfcErrorType.NOT_ENABLED) ∧
    (strIncludes e.message "not supported" = false → e.name ≠ "NotSupportedError" →
      strIncludes e.message "permission" = false → e.name ≠ "NotAllowedError" →
      strIncludes e.message "not enabled" = false →
      Nfc.classifyStartScanError e = NfcErrorType.UNEXPECTED_ERROR) ∧
    Nfc.startScanSession (WebNfc.startScanSession st opts outcome).1 =
      Except.error { message := "Web NFC API is not supported in this browser. NFC Web API requires Chrome 89+ on Android with NFC hardware, running over HTTPS.",
                     code := NfcErrorType.NOT_SUPPORTED } := by
  refine ⟨?_, ?_, ?_, ?_, ?_, ?_⟩
  · simp [Nfc.startScanSession, jsOrStr, hm]
  · rintro (h | h) <;> simp [Nfc.classifyStartScanError, h]
  · rintro h1 h2 (h | h) <;> simp [Nfc.classifyStartScanError, h1, h2, h]
  · intro h1 h2 h3 h4 h5
    simp [Nfc.classifyStartScanError, h1, h2, h3, h4, h5]
  · intro h1 h2 h3 h4 h5
    simp [Nfc.classifyStartScanError, h1, h2, h3, h4, h5]
  · have hw : (WebNfc.startScanSession st opts outcome).1 =
        Except.error (WebNfc.createCompatibilityError st) := by
      simp [WebNfc.startScanSession, hIos, hSup]
    have hc : WebNfc.createCompatibilityError st =
        jsErr "Web NFC API is not supported in this browser. NFC Web API requires Chrome 89+ on Android with NFC hardware, running over HTTPS." := by
      simp [WebNfc.createCompatibilityError, hIos]
    rw [hw, hc]
    rfl

/-- Witness for C7 at a concrete backend error and radio-backend state. -/
theorem startScan_error_classification_witness :
    Nfc.startScanSession (Except.error { name := "Error", message := "NFC is not enabled" }) =
      Except.error { message := "NFC is not enabled", code := NfcErrorType.NOT_ENABLED } := by
  have h := startScan_error_classification
    { name := "Error", message := "NFC is not enabled" }
    { scanSessionActive := false, scanOnce := false, tagListeners := [],
      statusListeners := [], hasNdefReader := false, nfcSupported := false,
      iosIsIos := false }
    none (Except.ok ()) (by decide) rfl rfl
  have hc := h.2.2.2.1 (by decide) (by decide) (by decide) (by decide) (by decide)
  rw [h.1, hc]

/-- C8: the handle returned by the facade's `addListener` removes exactly that
callback identity from both the facade's registry and the backend's registry
(other identities survive), a subsequently delivered detection event does not
invoke the removed listener, and a second `remove()` resolves and is a
no-op. -/
theorem addListener_remove_both_registries (st : Nfc.FacadeListeners) (f : Nat) :
    (Nfc.handleRemove (Nfc.addListener st f) f).1 = Except.ok () ∧
    f ∉ (Nfc.handleRemove (Nfc.addListener st f) f).2.facadeSet ∧
    f ∉ (Nfc.handleRemove (Nfc.addListener st f) f).2.backendList ∧
    (∀ g, g ∈ (Nfc.addListener st f).backendList → g ≠ f →
      g ∈ (Nfc.handleRemove (Nfc.addListener st f) f).2.backendList) ∧
    f ∉ (WebNfc.deliverReading
      { scanSessionActive := true, scanOnce := false,
        tagListeners := (Nfc.handleRemove (Nfc.addListener st f) f).2.backendList,
        statusListeners := [], hasNdefReader := true, nfcSupported := true,
        iosIsIos := false }).2 ∧
    Nfc.handleRemove (Nfc.handleRemove (Nfc.addListener st f) f).2 f =
      (Except.ok (), (Nfc.handleRemove (Nfc.addListener st f) f).2) := by
  refine ⟨rfl, ?_, ?_, ?_, ?_, ?_⟩
  · simp [Nfc.handleRemove, List.mem_filter]
  · simp [Nfc.handleRemove, List.mem_filter]
  · intro g hg hne
    simp [Nfc.handleRemove, List.mem_filter, hg, hne]
  · simp [Nfc.handleRemove, WebNfc.deliverReading, List.mem_filter]
  · simp [Nfc.handleRemove, List.filter_filter]

/-- Witness for C8: removing identity 7 keeps identity 3 registered and 7 is
gone from the backend registry. -/
theorem addListener_remove_both_registries_witness :
    7 ∉ (Nfc.handleRemove (Nfc.addListener { facadeSet := [3], backendList := [3] } 7) 7).2.backendList ∧
    3 ∈ (Nfc.handleRemove (Nfc.addListener { facadeSet := [3], backendList := [3] } 7) 7).2.backendList := by
  have h := addListener_remove_both_registries { facadeSet := [3], backendList := [3] } 7
  exact ⟨h.2.2.1, h.2.2.2.1 3 (by decide) (by decide)⟩

/-- C9: a user agent with the Android token and dot-delimited version `14.2`
parses to the number 14.2 (= 71/5, major + minor/10); one with the iOS token
and underscore-delimited version `14_2_1` parses to 14.2 by the same rule;
and a user agent containing the platform token but no parseable version token
yields `version = none` and forces `supportsNfc = false`, on both
detectors. -/
theorem version_parse_facts (ua1 ua2 : String)
    (h1 : strIncludesInsens ua1 "android" = true) (h2 : androidVerScan ua1.data = none)
    (h3 : strIncludesInsens ua2 "iphone" = true) (h4 : iosVerScan ua2.data = none) :
    (getAndroidSupportInfo "Mozilla/5.0 (Linux; Android 14.2; Pixel)").version =
      some (71 / 5 : ℚ) ∧
    (getIosSupportInfo "Mozilla/5.0 (iPhone; CPU iPhone OS 14_2_1 like Mac OS X)").version =
      some (71 / 5 : ℚ) ∧
    (getAndroidSupportInfo ua1).version = none ∧
    (getAndroidSupportInfo ua1).supportsNfc = false ∧
    (getIosSupportInfo ua2).version = none ∧
    (getIosSupportInfo ua2).supportsNfc = false := by
  refine ⟨?_, ?_, ?_, ?_, ?_, ?_⟩
  · have hA : strIncludesInsens "Mozilla/5.0 (Linux; Android 14.2; Pixel)" "android" = true := by
      decide
    have hscan : androidVerScan ("Mozilla/5.0 (Linux; Android 14.2; Pixel)").data =
        some (14, some 2) := by decide
    simp [getAndroidSupportInfo, hA, hscan]
    norm_num
  · have hI : strIncludesInsens "Mozilla/5.0 (iPhone; CPU iPhone OS 14_2_1 like Mac OS X)"
        "iphone" = true := by decide
    have hscan : iosVerScan ("Mozilla/5.0 (iPhone; CPU iPhone OS 14_2_1 like Mac OS X)").data =
        some (14, 2) := by decide
    simp [getIosSupportInfo, hI, hscan]
    norm_num
  · simp [getAndroidSupportInfo, h1, h2]
  · simp [getAndroidSupportInfo, h1, h2]
  · simp [getIosSupportInfo, h3, h4]
  · simp [getIosSupportInfo, h3, h4]

/-- Witness for C9 at concrete user agents with the platform token but no
version token. -/
theorem version_parse_facts_witness :
    (getAndroidSupportInfo "android phone").version = none ∧
    (getAndroidSupportInfo "android phone").supportsNfc = false ∧
    (getIosSupportInfo "iPhone").version = none ∧
    (getIosSupportInfo "iPhone").supportsNfc = false := by
  have h := version_parse_facts "android phone" "iPhone"
    (by decide) (by decide) (by decide) (by decide)
  exact ⟨h.2.2.1, h.2.2.2.1, h.2.2.2.2.1, h.2.2.2.2.2⟩

/-- C10: on the radio backend, a `startScanSession` that rejects (from an
idle state: the check paths reject before arming, and a scan/constructor
failure clears the flag in the catch) leaves the session-active flag false,
so a detection event delivered afterwards invokes no listener. -/
theorem failedStart_leaves_inactive (st : WebState) (opts : Option StartScanSessionOptions)
    (outcome : Except JsError Unit) (e : JsError)
    (hpre : st.scanSessionActive = false)
    (h : (WebNfc.startScanSession st opts outcome).1 = Except.error e) :
    (WebNfc.startScanSession st opts outcome).2.scanSessionActive = false ∧
    WebNfc.deliverReading (WebNfc.startScanSession st opts outcome).2 =
      ((WebNfc.startScanSession st opts outcome).2, []) := by
  have hact : (WebNfc.startScanSession st opts outcome).2.scanSessionActive = false := by
    by_cases hi : st.iosIsIos = true
    · simp [WebNfc.startScanSession, hi, hpre]
    · by_cases hs : st.nfcSupported = true
      · cases outcome with
        | ok u => simp [WebNfc.startScanSession, hi, hs] at h
        | error e2 =>
            by_cases hn1 : e2.name = "NotAllowedError"
            · simp [WebNfc.startScanSession, hi, hs, hn1]
            · by_cases hn2 : e2.name = "NotSupportedError"
              · simp [WebNfc.startScanSession, hi, hs, hn1, hn2]
              · simp [WebNfc.startScanSession, hi, hs, hn1, hn2]
      · simp [WebNfc.startScanSession, hi, hs, hpre]
  exact ⟨hact, deliverReading_inactive _ hact⟩

/-- Witness for C10: a failed start on an unsupported browser from the idle
state leaves the flag false and a subsequent event invokes nothing. -/
theorem failedStart_leaves_inactive_witness :
    (WebNfc.startScanSession
      { scanSessionActive := false, scanOnce := false, tagListeners := [7],
        statusListeners := [], hasNdefReader := false, nfcSupported := false,
        iosIsIos := false } none (Except.ok ())).2.scanSessionActive = false ∧
    (WebNfc.deliverReading (WebNfc.startScanSession
      { scanSessionActive := false, scanOnce := false, tagListeners := [7],
        statusListeners := [], hasNdefReader := false, nfcSupported := false,
        iosIsIos := false } none (Except.ok ())).2).2 = [] := by
  have h := failedStart_leaves_inactive
    { scanSessionActive := false, scanOnce := false, tagListeners := [7],
      statusListeners := [], hasNdefReader := false, nfcSupported := false,
      iosIsIos := false } none (Except.ok ())
    (WebNfc.createCompatibilityError
      { scanSessionActive := false, scanOnce := false, tagListeners := [7],
        statusListeners := [], hasNdefReader := false, nfcSupported := false,
        iosIsIos := false }) rfl rfl
  refine ⟨h.1, ?_⟩
  rw [h.2]

end Unfc
